import Mathlib

/-!
# JniHelloWorld: the native method `Java_JNIFoo_nativeFoo` (foo.c)

The C function prints a fixed message with `printf`, opens a fixed path with
`fopen(.., "w")`, writes one formatted line with `fprintf` and calls `fclose`.
Nothing is checked in between: the pointer from `fopen` is not tested and the
results of `printf`, `fprintf` and `fclose` are dropped.

The embedding passes an explicit `World` (standard-output stream, files,
open streams with their buffers, counters, effect trace) through models of the
four C library calls.  A call whose behaviour the C standard leaves undefined
(a stream operation on a null or stale `FILE *`, a conversion without its
argument) stops the run in `CallResult.undefined`, carrying the world reached
so far.  A call that merely fails returns its error value, which the caller is
free to ignore, as `foo.c` does.

Modelling assumptions, fixed here once:
* `World.stdout` is the character sequence written to the stream `stdout`;
  buffering between the stream and the terminal is not modelled.
* Whether `fopen` succeeds is decided by the environment (`World.canOpen`):
  permissions, missing directories and descriptor limits are not modelled
  individually.
* File streams are buffered: `fprintf` collects text in the stream's buffer
  (`World.bufsiz` characters at most) and text reaches the file when the buffer
  overflows and at `fclose`.
* The environment bounds what a file can hold (`World.writeLimit`: free space,
  quota, size limit).  Text beyond the bound is lost: the call that had to put
  it in the file returns its error value, and the part that fits stays.
-/

namespace JniHelloWorld

set_option linter.unusedVariables false

/-- The `JNIEnv *` argument, an address. -/
abbrev JNIEnv := Nat

/-- The `jobject` argument, a reference. -/
abbrev jobject := Nat

/-- A `FILE *`: `none` is the null pointer, `some h` a stream identifier. -/
abbrev FilePtr := Option Nat

/-- One call into the C library, as recorded in the effect trace. -/
inductive Event where
  | printf (out : String)
  | fopen (path mode : String) (result : FilePtr)
  | fprintf (stream : FilePtr) (out : String)
  | fclose (stream : FilePtr)
  deriving DecidableEq, Repr

/-- The process and its environment as far as `foo.c` can observe or change them. -/
structure World where
  /-- Text written to the stream `stdout` so far. -/
  stdout : String
  /-- Regular files by path: `none` when no file exists there. -/
  files : String → Option String
  /-- Environment oracle: does opening this path for writing succeed? -/
  canOpen : String → Bool
  /-- Environment oracle: the most characters a file at this path can hold. -/
  writeLimit : String → Nat
  /-- Size of a stream buffer (`BUFSIZ`; `0` for unbuffered streams). -/
  bufsiz : Nat
  /-- Open streams: identifier, the path it was opened on, and its buffer. -/
  handles : List (Nat × String × String)
  /-- Number of streams opened so far. -/
  opens : Nat
  /-- Number of streams closed so far. -/
  closes : Nat
  /-- Java exception pending in the calling thread (set through `JNIEnv`), if any. -/
  pending : Option String
  /-- Library calls made so far, oldest first. -/
  trace : List Event

/-- How a run of the native method ends (its C result type is `void`). -/
inductive Outcome where
  /-- Control came back to the caller in this world. -/
  | returned (w : World)
  /-- Undefined behaviour was reached; `w` is the world at that point. -/
  | undefined (w : World)

/-- How a library call with an `int` result ends. -/
inductive CallResult where
  /-- The call came back with `value` (negative on failure). -/
  | returned (value : Int) (w : World)
  /-- Undefined behaviour was reached; `w` is the world at that point. -/
  | undefined (w : World)

/-- The world an outcome carries. -/
def Outcome.world : Outcome → World
  | .returned w => w
  | .undefined w => w

/-- Did control come back to the caller? -/
def Outcome.isReturned : Outcome → Bool
  | .returned _ => true
  | .undefined _ => false

/-- Did the caller get an error back: a normal return with an exception pending. -/
def Outcome.raisedError : Outcome → Bool
  | .returned w => w.pending.isSome
  | .undefined _ => false

/-- Did the library call come back? -/
def CallResult.isReturned : CallResult → Bool
  | .returned _ _ => true
  | .undefined _ => false

/-- The world a library call leaves. -/
def CallResult.world : CallResult → World
  | .returned _ w => w
  | .undefined w => w

/-- The `int` a library call hands back, if it came back. -/
def CallResult.value : CallResult → Option Int
  | .returned v _ => some v
  | .undefined _ => none

/-- The value of `EOF`, also the error result of `fprintf`. -/
def EOF : Int := -1

/-- Expansion of a `printf`-family format over its string arguments.  Only the
conversions `foo.c` uses are covered: `%s` and the literal `%%`. A `%s` without
an argument, or any other conversion, gives `none`. -/
def formatChars : List Char → List String → Option (List Char)
  | [], _ => some []
  | '%' :: 's' :: rest, a :: args => (formatChars rest args).map (fun t => a.data ++ t)
  | '%' :: '%' :: rest, args => (formatChars rest args).map (fun t => '%' :: t)
  | '%' :: _, _ => none
  | c :: rest, args => (formatChars rest args).map (fun t => c :: t)

/-- Format expansion on strings. -/
def format (fmt : String) (args : List String) : Option String :=
  (formatChars fmt.data args).map String.mk

/-- An identifier no open stream uses; never `0`. -/
def freshHandle (hs : List (Nat × String × String)) : Nat :=
  (hs.map Prod.fst).foldr max 0 + 1

/-- The entry of an open stream. -/
def findStream (hs : List (Nat × String × String)) (h : Nat) : Option (Nat × String × String) :=
  hs.find? (fun e => e.1 == h)

/-- Replace the buffer of stream `h`. -/
def setBuffer (hs : List (Nat × String × String)) (h : Nat) (buf : String) :
    List (Nat × String × String) :=
  hs.map (fun e => if e.1 == h then (e.1, e.2.1, buf) else e)

/-- Put `data` at the end of the file at `path`, as far as the environment lets
the file grow.  The flag tells whether all of it went in.  Nothing is written
for empty `data`. -/
def deliver (path data : String) (w : World) : Bool × World :=
  if data.length = 0 then (true, w)
  else
    let old := (w.files path).getD ""
    let room := w.writeLimit path - old.length
    (decide (data.length ≤ room),
      { w with files := fun p =>
          if p = path then some (old ++ String.mk (data.data.take room)) else w.files p })

/-- Model of `printf(fmt, args...)`: the expansion is appended to `stdout`; the
result is the number of characters. -/
def printf (fmt : String) (args : List String) (w : World) : CallResult :=
  match format fmt args with
  | none => .undefined w
  | some out =>
    .returned out.length
      { w with stdout := w.stdout ++ out, trace := w.trace ++ [Event.printf out] }

/-- Model of `fopen(path, mode)` for the writing modes `"w"` (create or truncate)
and `"a"` (create or keep).  Yields the null pointer when the environment
refuses the open; other modes are not modelled and also yield null. -/
def fopen (path mode : String) (w : World) : FilePtr × World :=
  if (mode = "w" ∨ mode = "a") ∧ w.canOpen path = true then
    let h := freshHandle w.handles
    let content := if mode = "w" then "" else (w.files path).getD ""
    (some h,
      { w with
        files := fun p => if p = path then some content else w.files p,
        handles := (h, path, "") :: w.handles,
        opens := w.opens + 1,
        trace := w.trace ++ [Event.fopen path mode (some h)] })
  else
    (none, { w with trace := w.trace ++ [Event.fopen path mode none] })

/-- Model of `fprintf(stream, fmt, args...)`.  A null or stale stream, or a bad
format, is undefined behaviour.  Otherwise the expansion joins the stream's
buffer; when the buffer cannot take it, buffer and expansion go to the file,
and the call fails with a negative result if the file cannot hold them. -/
def fprintf (stream : FilePtr) (fmt : String) (args : List String) (w : World) : CallResult :=
  match stream, format fmt args with
  | some h, some out =>
    match findStream w.handles h with
    | some (_, path, buf) =>
      if (buf ++ out).length ≤ w.bufsiz then
        .returned out.length
          { w with
            handles := setBuffer w.handles h (buf ++ out),
            trace := w.trace ++ [Event.fprintf (some h) out] }
      else
        let (ok, w1) := deliver path (buf ++ out) w
        .returned (if ok then out.length else EOF)
          { w1 with
            handles := setBuffer w1.handles h "",
            trace := w1.trace ++ [Event.fprintf (some h) out] }
    | none => .undefined { w with trace := w.trace ++ [Event.fprintf (some h) out] }
  | s, some out => .undefined { w with trace := w.trace ++ [Event.fprintf s out] }
  | _, none => .undefined w

/-- Model of `fclose(stream)`.  A null or stale stream is undefined behaviour.
Otherwise what is left in the buffer goes to the file and the stream leaves the
set of open streams, also when the file could not hold the text; the result is
`0`, or `EOF` when text was lost. -/
def fclose (stream : FilePtr) (w : World) : CallResult :=
  match stream with
  | some h =>
    match findStream w.handles h with
    | some (_, path, buf) =>
      let (ok, w1) := deliver path buf w
      .returned (if ok then 0 else EOF)
        { w1 with
          handles := w1.handles.filter (fun e => !(e.1 == h)),
          closes := w1.closes + 1,
          trace := w1.trace ++ [Event.fclose (some h)] }
    | none => .undefined { w with trace := w.trace ++ [Event.fclose (some h)] }
  | none => .undefined { w with trace := w.trace ++ [Event.fclose none] }

/-- The path `foo.c` writes to. -/
def targetPath : String := "/home/andrii/temp/file.txt"

/-- The message `foo.c` prints. -/
def diagnostic : String := "Code from C executed in Java"

/-- The line `foo.c` writes to the file. -/
def fileLine : String := "Some text: Write this to the file\n"

/-- The native method of foo.c, statement by statement.  The `int` results of
`printf`, `fprintf` and `fclose` are dropped, as in the source. -/
def Java_JNIFoo_nativeFoo (env : JNIEnv) (obj : jobject) (w : World) : Outcome :=
  match printf "Code from C executed in Java" [] w with
  | .undefined w1 => .undefined w1
  | .returned _ w1 =>
    let (f, w2) := fopen "/home/andrii/temp/file.txt" "w" w1
    let text := "Write this to the file"
    match fprintf f "Some text: %s\n" [text] w2 with
    | .undefined w3 => .undefined w3
    | .returned _ w3 =>
      match fclose f w3 with
      | .undefined w4 => .undefined w4
      | .returned _ w4 => .returned w4

/-- A world with an older file at the target, one stream already open, and
where no path can be opened for writing. -/
def busyUnwritable : World :=
  { stdout := "earlier\n", files := fun p => if p = targetPath then some "old" else none,
    canOpen := fun _ => false, writeLimit := fun _ => 4096, bufsiz := 1024,
    handles := [(3, "/tmp/log", "")],
    opens := 1, closes := 0, pending := none, trace := [] }

/-- A world with an older file at the target, another file, one stream already
open, and where exactly the target path can be opened for writing. -/
def usedWritable : World :=
  { stdout := "earlier\n",
    files := fun p =>
      if p = targetPath then some "old old old old old old old old old old old old"
      else if p = "/tmp/log" then some "keep" else none,
    canOpen := fun p => p == targetPath, writeLimit := fun _ => 4096, bufsiz := 1024,
    handles := [(3, "/tmp/log", "")],
    opens := 1, closes := 0, pending := none, trace := [Event.fopen "/tmp/log" "a" (some 3)] }

/-- The world `usedWritable` on a full device: the target can still be opened
(and is truncated by that), but no file can take any text. -/
def fullDevice : World :=
  { usedWritable with writeLimit := fun _ => 0 }

/-- The world `usedWritable` with unbuffered streams and room for ten
characters per file. -/
def tightUnbuffered : World :=
  { usedWritable with writeLimit := fun _ => 10, bufsiz := 0 }

/-- The part of the line of `foo.c` that a file limited to `n` characters holds. -/
def keptLine (n : Nat) : String :=
  String.mk (fileLine.data.take n)

/-! ## Library-level lemmas -/

theorem format_diagnostic : format "Code from C executed in Java" [] = some diagnostic := by
  decide

theorem format_fileLine :
    format "Some text: %s\n" ["Write this to the file"] = some fileLine := by
  decide

theorem fileLine_length : fileLine.length = 34 := by
  decide

theorem fst_le_foldr_max (hs : List (Nat × String × String)) :
    ∀ e ∈ hs, e.1 ≤ (hs.map Prod.fst).foldr max 0 := by
  induction hs with
  | nil => intro e he; cases he
  | cons x xs ih =>
    intro e he
    rcases List.mem_cons.mp he with rfl | hmem
    · simp
    · have := ih e hmem
      simp only [List.map_cons, List.foldr_cons]
      exact le_trans this (le_max_right _ _)

theorem fst_ne_freshHandle (hs : List (Nat × String × String)) :
    ∀ e ∈ hs, e.1 ≠ freshHandle hs := by
  intro e he
  have := fst_le_foldr_max hs e he
  unfold freshHandle
  omega

theorem filter_freshHandle (hs : List (Nat × String × String)) :
    hs.filter (fun e => !(e.1 == freshHandle hs)) = hs := by
  apply List.filter_eq_self.mpr
  intro e he
  simp [fst_ne_freshHandle hs e he]

theorem setBuffer_freshHandle (hs : List (Nat × String × String)) (buf : String) :
    setBuffer hs (freshHandle hs) buf = hs := by
  unfold setBuffer
  conv_rhs => rw [← List.map_id hs]
  apply List.map_congr_left
  intro e he
  simp [fst_ne_freshHandle hs e he]

theorem keptLine_length (n : Nat) : (keptLine n).length = min 34 n := by
  have h := fileLine_length
  simp only [String.length] at h
  simp [keptLine, List.length_take, h, Nat.min_comm]

theorem keptLine_of_le (n : Nat) (h : 34 ≤ n) : keptLine n = fileLine := by
  have hl : fileLine.data.length ≤ n := by
    have := fileLine_length
    simp only [String.length] at this
    omega
  simp [keptLine, List.take_of_length_le hl]

/-- On a full device the buffered `fprintf` of the line succeeds with 34, and it
is `fclose` that loses the line and hands back `EOF`. -/
theorem fclose_full_device :
    (fprintf (some 4) "Some text: %s\n" ["Write this to the file"]
        (fopen targetPath "w" fullDevice).2).value = some 34
      ∧ (fclose (some 4)
          (fprintf (some 4) "Some text: %s\n" ["Write this to the file"]
            (fopen targetPath "w" fullDevice).2).world).value = some EOF := by
  decide

/-- With unbuffered streams and room for ten characters it is `fprintf` that
fails; the ten characters that fit stay in the file. -/
theorem fprintf_tight_unbuffered :
    (fprintf (some 4) "Some text: %s\n" ["Write this to the file"]
        (fopen targetPath "w" tightUnbuffered).2).value = some EOF
      ∧ (Java_JNIFoo_nativeFoo 0 0 tightUnbuffered).world.files targetPath
          = some "Some text:" := by
  decide

/-! ## The two runs of the native method -/

/-- With a successful open the run returns, and every component of the final
world is determined: the file holds as much of the line as the environment
lets it hold. -/
theorem nativeFoo_open_ok (env : JNIEnv) (obj : jobject) (w : World)
    (h : w.canOpen targetPath = true) :
    ∃ w1, Java_JNIFoo_nativeFoo env obj w = .returned w1
      ∧ w1.stdout = w.stdout ++ diagnostic
      ∧ w1.files = (fun p =>
          if p = targetPath then some (keptLine (w.writeLimit targetPath)) else w.files p)
      ∧ w1.canOpen = w.canOpen
      ∧ w1.handles = w.handles
      ∧ w1.opens = w.opens + 1
      ∧ w1.closes = w.closes + 1
      ∧ w1.pending = w.pending
      ∧ w1.trace = w.trace ++
          [Event.printf diagnostic,
           Event.fopen targetPath "w" (some (freshHandle w.handles)),
           Event.fprintf (some (freshHandle w.handles)) fileLine,
           Event.fclose (some (freshHandle w.handles))]
      ∧ w1.writeLimit = w.writeLimit
      ∧ w1.bufsiz = w.bufsiz := by
  have h1 : w.canOpen "/home/andrii/temp/file.txt" = true := h
  have hlen := fileLine_length
  have hmap : ∀ buf : String,
      List.map (fun e : Nat × String × String =>
        if e.1 = freshHandle w.handles then (e.1, e.2.1, buf) else e) w.handles = w.handles := by
    intro buf
    conv_rhs => rw [← List.map_id w.handles]
    apply List.map_congr_left
    intro e he
    simp [fst_ne_freshHandle w.handles e he]
  have hfiles : (fun p =>
        if p = "/home/andrii/temp/file.txt" then
          some (String.mk (List.take (w.writeLimit "/home/andrii/temp/file.txt") fileLine.data))
        else if p = "/home/andrii/temp/file.txt" then some "" else w.files p) =
      fun p =>
      if p = targetPath then some (keptLine (w.writeLimit targetPath)) else w.files p := by
    funext p
    by_cases hp : p = "/home/andrii/temp/file.txt" <;> simp [hp, targetPath, keptLine]
  by_cases hb : 34 ≤ w.bufsiz
  · simp [Java_JNIFoo_nativeFoo, printf, fopen, fprintf, fclose, format_diagnostic,
      format_fileLine, findStream, setBuffer, deliver, h1, hb, hlen, filter_freshHandle,
      fst_ne_freshHandle]
    exact ⟨hfiles, by rw [hmap]; exact filter_freshHandle w.handles, rfl⟩
  · simp [Java_JNIFoo_nativeFoo, printf, fopen, fprintf, fclose, format_diagnostic,
      format_fileLine, findStream, setBuffer, deliver, h1, hb, hlen, filter_freshHandle,
      fst_ne_freshHandle]
    exact ⟨hfiles, by rw [hmap]; exact filter_freshHandle w.handles, rfl⟩

/-- With a failed open the run stops at the `fprintf` on the null stream: the
message is on `stdout`, the trace ends with the null-stream write, and
nothing else has changed. -/
theorem nativeFoo_open_fails (env : JNIEnv) (obj : jobject) (w : World)
    (h : w.canOpen targetPath = false) :
    ∃ w1, Java_JNIFoo_nativeFoo env obj w = .undefined w1
      ∧ w1.stdout = w.stdout ++ diagnostic
      ∧ w1.files = w.files
      ∧ w1.canOpen = w.canOpen
      ∧ w1.handles = w.handles
      ∧ w1.opens = w.opens
      ∧ w1.closes = w.closes
      ∧ w1.pending = w.pending
      ∧ w1.trace = w.trace ++
          [Event.printf diagnostic,
           Event.fopen targetPath "w" none,
           Event.fprintf none fileLine] := by
  have h1 : w.canOpen "/home/andrii/temp/file.txt" = false := h
  simp [Java_JNIFoo_nativeFoo, printf, fopen, fprintf, format_diagnostic,
    format_fileLine, h1]
  rfl

/-! ## The claims -/

/-- C1, as stated, fails: on a full device the fixed path can be opened for
writing and the call returns, yet the target file is left empty: the line was
lost when the stream was closed, and the result of `fclose` is dropped. -/
theorem nativeFoo_lost_write :
    fullDevice.canOpen "/home/andrii/temp/file.txt" = true
      ∧ (Java_JNIFoo_nativeFoo 0 0 fullDevice).isReturned = true
      ∧ (Java_JNIFoo_nativeFoo 0 0 fullDevice).world.files "/home/andrii/temp/file.txt"
          = some ""
      ∧ (Java_JNIFoo_nativeFoo 0 0 fullDevice).world.files "/home/andrii/temp/file.txt"
          ≠ some "Some text: Write this to the file\n" := by
  decide

/-- C1, amended: whenever the fixed path can be opened for writing and the
environment lets the file there hold the whole line, the call returns and the
target file then holds exactly `Some text: Write this to the file` followed by
one line break (label, payload, terminator), whatever it held before. -/
theorem nativeFoo_file_content (env : JNIEnv) (obj : jobject) (w : World)
    (h : w.canOpen "/home/andrii/temp/file.txt" = true)
    (hroom : String.length "Some text: Write this to the file\n"
      ≤ w.writeLimit "/home/andrii/temp/file.txt") :
    ∃ w1, Java_JNIFoo_nativeFoo env obj w = .returned w1
      ∧ w1.files "/home/andrii/temp/file.txt" = some "Some text: Write this to the file\n"
      ∧ "Some text: Write this to the file\n"
          = "Some text: " ++ "Write this to the file" ++ "\n" := by
  obtain ⟨w1, hrun, -, hfiles, -⟩ := nativeFoo_open_ok env obj w h
  refine ⟨w1, hrun, ?_, by decide⟩
  have h34 : 34 ≤ w.writeLimit targetPath := by
    have hl : String.length "Some text: Write this to the file\n" = 34 := fileLine_length
    rw [hl] at hroom
    exact hroom
  rw [hfiles]
  simp only [targetPath, if_true]
  exact congrArg some (keptLine_of_le _ h34)

theorem nativeFoo_file_content_witness :
    usedWritable.canOpen "/home/andrii/temp/file.txt" = true
      ∧ String.length "Some text: Write this to the file\n"
          ≤ usedWritable.writeLimit "/home/andrii/temp/file.txt"
      ∧ usedWritable.files "/home/andrii/temp/file.txt"
          = some "old old old old old old old old old old old old"
      ∧ ∃ w1, Java_JNIFoo_nativeFoo 0 0 usedWritable = .returned w1
          ∧ w1.files "/home/andrii/temp/file.txt" = some "Some text: Write this to the file\n"
          ∧ "Some text: Write this to the file\n"
              = "Some text: " ++ "Write this to the file" ++ "\n" :=
  ⟨by decide, by decide, by decide,
    nativeFoo_file_content 0 0 usedWritable (by decide) (by decide)⟩

/-- C2, as stated, fails: in a world where the open of the fixed path fails the
call neither returns nor hands an error to its caller. -/
theorem nativeFoo_failed_open_not_reported :
    busyUnwritable.canOpen "/home/andrii/temp/file.txt" = false
      ∧ (Java_JNIFoo_nativeFoo 0 0 busyUnwritable).isReturned = false
      ∧ (Java_JNIFoo_nativeFoo 0 0 busyUnwritable).raisedError = false := by
  decide

/-- C2, amended: against an unwritable target path the call reports no error to
its caller; the pending-exception state of the caller is left as it was. -/
theorem nativeFoo_raises_nothing (env : JNIEnv) (obj : jobject) (w : World)
    (h : w.canOpen "/home/andrii/temp/file.txt" = false) :
    (Java_JNIFoo_nativeFoo env obj w).raisedError = false
      ∧ (Java_JNIFoo_nativeFoo env obj w).world.pending = w.pending := by
  obtain ⟨w1, hrun, -, -, -, -, -, -, hpend, -⟩ := nativeFoo_open_fails env obj w h
  rw [hrun]
  exact ⟨rfl, hpend⟩

theorem nativeFoo_raises_nothing_witness :
    busyUnwritable.canOpen "/home/andrii/temp/file.txt" = false
      ∧ (Java_JNIFoo_nativeFoo 0 0 busyUnwritable).raisedError = false
      ∧ (Java_JNIFoo_nativeFoo 0 0 busyUnwritable).world.pending = busyUnwritable.pending :=
  ⟨by decide, nativeFoo_raises_nothing 0 0 busyUnwritable (by decide)⟩

/-- C3: with a writable target path a second call overwrites: after two calls
in a row the target file has the content, and so the length, it had after the
first (at most the 34 characters of the line, never twice the line). -/
theorem nativeFoo_twice_overwrites (env env2 : JNIEnv) (obj obj2 : jobject) (w : World)
    (h : w.canOpen "/home/andrii/temp/file.txt" = true) :
    ∃ w1 w2, Java_JNIFoo_nativeFoo env obj w = .returned w1
      ∧ Java_JNIFoo_nativeFoo env2 obj2 w1 = .returned w2
      ∧ w2.files "/home/andrii/temp/file.txt" = w1.files "/home/andrii/temp/file.txt"
      ∧ (w2.files "/home/andrii/temp/file.txt").map String.length
          = (w1.files "/home/andrii/temp/file.txt").map String.length
      ∧ (w2.files "/home/andrii/temp/file.txt").map String.length
          = some (min 34 (w.writeLimit "/home/andrii/temp/file.txt"))
      ∧ w2.files = w1.files := by
  obtain ⟨w1, hrun1, -, hfiles1, hcan1, -, -, -, -, -, hlim1, -⟩ :=
    nativeFoo_open_ok env obj w h
  have h1 : w1.canOpen targetPath = true := by rw [hcan1]; exact h
  obtain ⟨w2, hrun2, -, hfiles2, -⟩ := nativeFoo_open_ok env2 obj2 w1 h1
  have hsame : w2.files = w1.files := by
    rw [hfiles2, hfiles1, hlim1]
    funext p
    by_cases hp : p = targetPath <;> simp [hp]
  have hlen : (w2.files "/home/andrii/temp/file.txt").map String.length
      = some (min 34 (w.writeLimit "/home/andrii/temp/file.txt")) := by
    rw [hfiles2, hlim1]
    simp only [targetPath, if_true, Option.map_some']
    exact congrArg some (keptLine_length _)
  refine ⟨w1, w2, hrun1, hrun2, by rw [hsame], by rw [hsame], hlen, hsame⟩

theorem nativeFoo_twice_overwrites_witness :
    usedWritable.canOpen "/home/andrii/temp/file.txt" = true
      ∧ ∃ w1 w2, Java_JNIFoo_nativeFoo 0 0 usedWritable = .returned w1
          ∧ Java_JNIFoo_nativeFoo 0 0 w1 = .returned w2
          ∧ w2.files "/home/andrii/temp/file.txt" = w1.files "/home/andrii/temp/file.txt"
          ∧ (w2.files "/home/andrii/temp/file.txt").map String.length
              = (w1.files "/home/andrii/temp/file.txt").map String.length
          ∧ (w2.files "/home/andrii/temp/file.txt").map String.length
              = some (min 34 (usedWritable.writeLimit "/home/andrii/temp/file.txt"))
          ∧ w2.files = w1.files :=
  ⟨by decide, nativeFoo_twice_overwrites 0 0 0 0 usedWritable (by decide)⟩

/-- C5: no call leaks a stream: in every outcome the set of open streams is the
one from before the call, and the call has closed as many streams as it has
opened.  A call whose open succeeds returns, having opened exactly one stream
and closed exactly one, the one it opened. -/
theorem nativeFoo_one_open_one_close (env : JNIEnv) (obj : jobject) (w : World) :
    (Java_JNIFoo_nativeFoo env obj w).world.handles = w.handles
      ∧ (Java_JNIFoo_nativeFoo env obj w).world.opens + w.closes
          = (Java_JNIFoo_nativeFoo env obj w).world.closes + w.opens
      ∧ (w.canOpen "/home/andrii/temp/file.txt" = true →
          ∃ w1, Java_JNIFoo_nativeFoo env obj w = .returned w1
            ∧ w1.opens = w.opens + 1
            ∧ w1.closes = w.closes + 1
            ∧ w1.handles = w.handles
            ∧ freshHandle w.handles ∉ w1.handles.map Prod.fst
            ∧ (w1.trace.drop w.trace.length).filter
                  (fun e => match e with
                    | Event.fopen _ _ _ => true
                    | Event.fclose _ => true
                    | _ => false)
                = [Event.fopen "/home/andrii/temp/file.txt" "w" (some (freshHandle w.handles)),
                   Event.fclose (some (freshHandle w.handles))]) := by
  refine ⟨?_, ?_, ?_⟩
  · cases h : w.canOpen targetPath
    · obtain ⟨w1, hrun, -, -, -, hh, -⟩ := nativeFoo_open_fails env obj w h
      rw [hrun]; exact hh
    · obtain ⟨w1, hrun, -, -, -, hh, -⟩ := nativeFoo_open_ok env obj w h
      rw [hrun]; exact hh
  · cases h : w.canOpen targetPath
    · obtain ⟨w1, hrun, -, -, -, -, ho, hc, -⟩ := nativeFoo_open_fails env obj w h
      rw [hrun]
      show w1.opens + w.closes = w1.closes + w.opens
      omega
    · obtain ⟨w1, hrun, -, -, -, -, ho, hc, -⟩ := nativeFoo_open_ok env obj w h
      rw [hrun]
      show w1.opens + w.closes = w1.closes + w.opens
      omega
  · intro h
    obtain ⟨w1, hrun, -, -, -, hh, ho, hc, -, htr, -⟩ := nativeFoo_open_ok env obj w h
    refine ⟨w1, hrun, ho, hc, hh, ?_, ?_⟩
    · rw [hh]
      intro hmem
      obtain ⟨e, he, heq⟩ := List.mem_map.mp hmem
      exact fst_ne_freshHandle w.handles e he heq
    · simp [htr, targetPath]

theorem nativeFoo_one_open_one_close_witness :
    usedWritable.canOpen "/home/andrii/temp/file.txt" = true
      ∧ ∃ w1, Java_JNIFoo_nativeFoo 0 0 usedWritable = .returned w1
          ∧ w1.opens = usedWritable.opens + 1
          ∧ w1.closes = usedWritable.closes + 1
          ∧ w1.handles = usedWritable.handles
          ∧ freshHandle usedWritable.handles ∉ w1.handles.map Prod.fst
          ∧ (w1.trace.drop usedWritable.trace.length).filter
                (fun e => match e with
                  | Event.fopen _ _ _ => true
                  | Event.fclose _ => true
                  | _ => false)
              = [Event.fopen "/home/andrii/temp/file.txt" "w"
                   (some (freshHandle usedWritable.handles)),
                 Event.fclose (some (freshHandle usedWritable.handles))] :=
  ⟨by decide, (nativeFoo_one_open_one_close 0 0 usedWritable).2.2 (by decide)⟩

/-- C6: the outcome of the call, and with it the standard-output text and the
final files, is the same for any two pairs of arguments `(env, obj)`. -/
theorem nativeFoo_ignores_arguments (env env2 : JNIEnv) (obj obj2 : jobject) (w : World) :
    Java_JNIFoo_nativeFoo env obj w = Java_JNIFoo_nativeFoo env2 obj2 w
      ∧ (Java_JNIFoo_nativeFoo env obj w).world.stdout
          = (Java_JNIFoo_nativeFoo env2 obj2 w).world.stdout
      ∧ (Java_JNIFoo_nativeFoo env obj w).world.files
          = (Java_JNIFoo_nativeFoo env2 obj2 w).world.files :=
  ⟨rfl, rfl, rfl⟩

/-- C7: with a writable target path the call changes no file other than the one
at the fixed path, and what was on standard output before is an initial
segment of what is there after; open streams, the pending exception and the
environment are as before. -/
theorem nativeFoo_frame (env : JNIEnv) (obj : jobject) (w : World)
    (h : w.canOpen "/home/andrii/temp/file.txt" = true) :
    ∃ w1, Java_JNIFoo_nativeFoo env obj w = .returned w1
      ∧ (∀ p, p ≠ "/home/andrii/temp/file.txt" → w1.files p = w.files p)
      ∧ (∃ out, w1.stdout = w.stdout ++ out)
      ∧ w1.handles = w.handles
      ∧ w1.pending = w.pending
      ∧ w1.canOpen = w.canOpen := by
  obtain ⟨w1, hrun, hout, hfiles, hcan, hh, -, -, hpend, -⟩ := nativeFoo_open_ok env obj w h
  refine ⟨w1, hrun, ?_, ⟨diagnostic, hout⟩, hh, hpend, hcan⟩
  intro p hp
  have hp1 : p ≠ targetPath := hp
  rw [hfiles]
  simp [hp1]

theorem nativeFoo_frame_witness :
    usedWritable.canOpen "/home/andrii/temp/file.txt" = true
      ∧ ∃ w1, Java_JNIFoo_nativeFoo 0 0 usedWritable = .returned w1
          ∧ (∀ p, p ≠ "/home/andrii/temp/file.txt" → w1.files p = usedWritable.files p)
          ∧ (∃ out, w1.stdout = usedWritable.stdout ++ out)
          ∧ w1.handles = usedWritable.handles
          ∧ w1.pending = usedWritable.pending
          ∧ w1.canOpen = usedWritable.canOpen :=
  ⟨by decide, nativeFoo_frame 0 0 usedWritable (by decide)⟩

/-- C8: when the open of the fixed path fails the call does not check the
stream: it goes on to `fprintf` with the null stream, which is where the run
ends, in undefined behaviour.  It does not return, the write is not skipped,
no file has changed, and the `fclose` that follows in the source would be
undefined on the same null stream. -/
theorem nativeFoo_null_stream (env : JNIEnv) (obj : jobject) (w : World)
    (h : w.canOpen "/home/andrii/temp/file.txt" = false) :
    ∃ w1, Java_JNIFoo_nativeFoo env obj w = .undefined w1
      ∧ (Java_JNIFoo_nativeFoo env obj w).isReturned = false
      ∧ w1.trace = w.trace ++
          [Event.printf "Code from C executed in Java",
           Event.fopen "/home/andrii/temp/file.txt" "w" none,
           Event.fprintf none "Some text: Write this to the file\n"]
      ∧ w1.files = w.files
      ∧ (fclose none w1).isReturned = false := by
  obtain ⟨w1, hrun, -, hfiles, -, -, -, -, -, htr⟩ := nativeFoo_open_fails env obj w h
  refine ⟨w1, hrun, by rw [hrun]; rfl, htr, hfiles, rfl⟩

theorem nativeFoo_null_stream_witness :
    busyUnwritable.canOpen "/home/andrii/temp/file.txt" = false
      ∧ ∃ w1, Java_JNIFoo_nativeFoo 0 0 busyUnwritable = .undefined w1
          ∧ (Java_JNIFoo_nativeFoo 0 0 busyUnwritable).isReturned = false
          ∧ w1.trace = busyUnwritable.trace ++
              [Event.printf "Code from C executed in Java",
               Event.fopen "/home/andrii/temp/file.txt" "w" none,
               Event.fprintf none "Some text: Write this to the file\n"]
          ∧ w1.files = busyUnwritable.files
          ∧ (fclose none w1).isReturned = false :=
  ⟨by decide, nativeFoo_null_stream 0 0 busyUnwritable (by decide)⟩

end JniHelloWorld
